import Mathlib

/-!
# Verification of the foresttrace tile acquisition and rasterization pipeline

Shallow embedding of the dataset-building code of the `foresttrace`
repository (directory `foresttrace/dataset`): the concurrent NAIP tile
acquisition manager with its retry bookkeeping, the failure-log format,
the per-tile polygon rasterizers, the single-mask rasterizer and the
mask alignment (slicing) pass.

Conventions of the embedding:
* Machine integers are `Nat`/`Int`; Python floats are embedded as exact
  rationals `ℚ` (the geometric code performs only field operations and
  comparisons, which the sources treat as exact).
* External collaborators (the HTTP client, the image decoder, the
  `mercantile` tile geodesy and the `pyproj` reprojection) are modelled as
  explicit parameters: a `FetchWorld` for the network and a `TileGeo` for
  the geodesy.  Theorems either quantify over them or instantiate them.
* Filesystem effects of the acquisition manager are modelled by an
  explicit `LogState` (the failure log and its numbered backups);
  fallible operations return `Option`/sum outcomes.
-/

namespace ForestTrace

/-- A web-map tile address, mirroring `mercantile.Tile` (a namedtuple with
field order `x, y, z`). -/
structure Tile where
  x : Nat
  y : Nat
  z : Nat
deriving DecidableEq, Repr

/-! ## Tile fetch worker: `download_naip.download_tile`

```python
def download_tile(tile, out_dir):
    url = TMS_URL.format(z=tile.z, x=tile.x, y=tile.y)
    try:
        response = requests.get(url, timeout=10)
        if response.status_code == 200:
            img = Image.open(BytesIO(response.content))
            img.save(out_dir / f"{tile.z}_{tile.x}_{tile.y}.png")
            return True, tile
    except Exception:
        pass
    return False, tile
```
-/

/-- The observable behaviour of one HTTP response for a tile:
its status code, whether `Image.open` succeeds on its body
(`decodeOk`), and whether `img.save` succeeds (`saveOk`). -/
structure HttpResponse where
  status_code : Nat
  decodeOk : Bool
  saveOk : Bool
deriving DecidableEq, Repr

/-- The network/decoder environment one `download_tile` call runs against.
`response t = none` models `requests.get` raising (timeout, connection
error); `some r` models a response being returned. -/
structure FetchWorld where
  response : Tile → Option HttpResponse

/-- Embedding of `download_tile`: every failure mode inside the `try`
block (exception from `get`, non-200 status falling through, exception
from decode or save) reaches the final `return False, tile`. -/
def download_tile (w : FetchWorld) (t : Tile) : Bool × Tile :=
  match w.response t with
  | none => (false, t)
  | some r =>
    if r.status_code = 200 then
      if r.decodeOk then
        if r.saveOk then (true, t)
        else (false, t)
      else (false, t)
    else (false, t)

/-! ## Acquisition manager: `data_pipeline.download_naip_imagery`

The filesystem state it manipulates is the failure log
`failed_tiles.txt` and the numbered backups
`failed_tiles_backup_{i}.txt`.  The per-round fetch outcomes are
abstracted by `fetch : Nat → Tile → Bool` (round number, tile address);
round `0` is the initial `download_naip` pass, round `i ≥ 1` is the
`i`-th retry pass run by `download_failed_naip`.  Within a round the
source collects outcomes in completion order of the worker pool; the
embedding uses submission order (the claims proved below use tile sets
for which the order is immaterial). -/

/-- Failure-log files in `naip_dir`: the current `failed_tiles.txt`
(`none` when absent) and the numbered backup files with their
contents. -/
structure LogState where
  failedFile : Option (List Tile)
  backups : List (Nat × List Tile)
deriving DecidableEq, Repr

/-- Embedding of `download_naip`: fetch every tile, collect the failed
ones, and write `failed_tiles.txt` only when some tile failed. -/
def download_naip (fetch0 : Tile → Bool) (tiles : List Tile) (st : LogState) : LogState :=
  let failed := tiles.filter (fun t => ! fetch0 t)
  if failed.isEmpty then st else { st with failedFile := some failed }

/-- Embedding of `download_failed_naip`: re-fetch exactly the tiles
listed in the (renamed) failure log, and write a fresh
`failed_tiles.txt` only when some of them failed again. -/
def download_failed_naip (fetchR : Tile → Bool) (backupContents : List Tile)
    (st : LogState) : LogState :=
  let failed := backupContents.filter (fun t => ! fetchR t)
  if failed.isEmpty then st else { st with failedFile := some failed }

/-- Result of `download_naip_imagery`: the returned boolean, the value
of `retry_count` at return time (the number of retry rounds actually
executed), and the final failure-log state. -/
structure ManagerResult where
  success : Bool
  retryRounds : Nat
  state : LogState
deriving DecidableEq, Repr

/-- Embedding of the retry loop of `download_naip_imagery`:

```python
while failed_file.exists() and retry_count < max_retries:
    retry_count += 1
    backup_file = naip_dir / f"failed_tiles_backup_{retry_count}.txt"
    failed_file.rename(backup_file)
    download_failed_naip(str(backup_file), naip_dir)
    if not failed_file.exists():
        return True
    if failed_file.exists():
        return False
logging.info(...)
return True
```

`remaining` is `max_retries - retry_count`, so the guard
`retry_count < max_retries` is `remaining ≠ 0`.  Both `if` statements at
the end of the body return, so the recursive call (the next loop
iteration) is reachable only through the `else` of both — which is a
contradiction; it is kept to mirror the loop structure of the source. -/
def retryLoop (fetch : Nat → Tile → Bool) :
    (remaining : Nat) → (retryCount : Nat) → LogState → ManagerResult
  | 0, rc, st => ⟨true, rc, st⟩
  | remaining + 1, rc, st =>
    match st.failedFile with
    | none => ⟨true, rc, st⟩
    | some failed =>
      let rc' := rc + 1
      let st1 : LogState := ⟨none, (rc', failed) :: st.backups⟩
      let st2 := download_failed_naip (fetch rc') failed st1
      if st2.failedFile.isNone then ⟨true, rc', st2⟩
      else if st2.failedFile.isSome then ⟨false, rc', st2⟩
      else retryLoop fetch remaining rc' st2

/-- Embedding of `download_naip_imagery` on a fresh output directory
(the pipeline always creates a new timestamped directory, so no failure
log pre-exists): run the initial `download_naip` pass, then the retry
loop with `retry_count = 0`. -/
def download_naip_imagery (fetch : Nat → Tile → Bool) (tiles : List Tile)
    (maxRetries : Nat) : ManagerResult :=
  retryLoop fetch maxRetries 0 (download_naip (fetch 0) tiles ⟨none, []⟩)

/-! ## Failure-log line format

`download_naip` writes one line `f"{tile.z},{tile.x},{tile.y}\n"` per
failed tile; `download_failed_naip` reads it back with

```python
zoom, x, y = line.strip().split(",")
tile = mercantile.Tile(int(x), int(y), int(zoom))
```

The file is modelled as a list of line payloads (the `\n` terminators
are consumed by Python's line iteration), each payload a `List Char`.
Python's decimal formatting of a nonnegative `int` and `int(...)`
parsing of a decimal digit string are embedded explicitly. -/

/-- The decimal digit character for `d` (`0 ≤ d ≤ 9`). -/
def digitChar (d : Nat) : Char := Char.ofNat (48 + d)

/-- The numeric value of a decimal digit character. -/
def charDigit (c : Char) : Nat := c.toNat - 48

/-- Python `str(n)` for a nonnegative int: its big-endian decimal digit
characters (`"0"` for `0`). -/
def natToChars (n : Nat) : List Char :=
  if n = 0 then ['0'] else ((Nat.digits 10 n).reverse).map digitChar

/-- Python `int(s)` on a (nonempty) decimal digit string. -/
def charsToNat (cs : List Char) : Nat :=
  Nat.ofDigits 10 ((cs.map charDigit).reverse)

/-- The payload of the line `f"{tile.z},{tile.x},{tile.y}"` written for
one failed tile. -/
def writeFailedLine (t : Tile) : List Char :=
  natToChars t.z ++ ',' :: (natToChars t.x ++ ',' :: natToChars t.y)

/-- Python `str.strip()` whitespace test, for the characters that can
occur around a failure-log line. -/
def isSpaceChar (c : Char) : Bool :=
  c = ' ' || c = '\n' || c = '\t' || c = '\r'

/-- Python `str.strip()`. -/
def stripChars (cs : List Char) : List Char :=
  ((cs.dropWhile isSpaceChar).reverse.dropWhile isSpaceChar).reverse

/-- Python `str.split(",")`. -/
def splitComma : List Char → List (List Char)
  | [] => [[]]
  | c :: rest =>
    if c = ',' then [] :: splitComma rest
    else
      match splitComma rest with
      | [] => [[c]]
      | f :: fs => (c :: f) :: fs

/-- The retry reader's parse of one failure-log line:
`zoom, x, y = line.strip().split(",")` followed by
`mercantile.Tile(int(x), int(y), int(zoom))`.  A line that does not
split into exactly three fields makes the unpacking raise; this is
modelled as `none`. -/
def parseFailedLine (line : List Char) : Option Tile :=
  match splitComma (stripChars line) with
  | [zs, xs, ys] => some ⟨charsToNat xs, charsToNat ys, charsToNat zs⟩
  | _ => none

/-! ## Input validation: `data_pipeline.validate_bbox`

```python
def validate_bbox(bbox):
    west, south, east, north = bbox
    if not (-180 <= west <= 180 and -180 <= east <= 180): return False
    if not (-90 <= south <= 90 and -90 <= north <= 90): return False
    if west >= east: return False
    if south >= north: return False
    return True
```

`data_pipeline` raises `ValueError("Invalid bounding box coordinates")`
when this returns `False`, before any download step runs.  The zoom
level is not examined by any validation: it flows unchecked into the
download phase. -/

/-- Embedding of `validate_bbox`. -/
def validate_bbox (west south east north : ℚ) : Bool :=
  if ¬ (-180 ≤ west ∧ west ≤ 180 ∧ -180 ≤ east ∧ east ≤ 180) then false
  else if ¬ (-90 ≤ south ∧ south ≤ 90 ∧ -90 ≤ north ∧ north ≤ 90) then false
  else if west ≥ east then false
  else if south ≥ north then false
  else true

/-- The one hard error `data_pipeline` can raise before the download
phase. -/
inductive PipelineError where
  | invalidBBox
deriving DecidableEq, Repr

/-- The validation `data_pipeline` performs before any tile fetching:
only the bounding box is checked (raising `ValueError` when invalid);
the `zoom` argument is accepted unexamined. -/
def pipeline_prevalidation (west south east north : ℚ) (zoom : ℤ) :
    Option PipelineError :=
  have _ := zoom
  if ¬ validate_bbox west south east north then some .invalidBBox else none

/-! ## Geometry model

The polygon sources feed axis-aligned bounding-box geometries through
`shapely`'s `box`, `intersects` and `intersection` and through
`rasterio.features.rasterize`.  The embedding models geometries as
closed axis-aligned rational rectangles, which is the exact fragment
the claims below exercise, and models the two external geometry
operations (`intersects`/`intersection`) and the two rasterization
rules of `rasterio` (`all_touched=True`: a pixel is burned when its
closed square meets a geometry; default: a pixel is burned when its
center lies in a geometry) on that fragment. -/

/-- A closed axis-aligned rectangle `[x0, x1] × [y0, y1]` (degenerate
and inverted rectangles allowed). -/
structure Rect where
  x0 : ℚ
  y0 : ℚ
  x1 : ℚ
  y1 : ℚ
deriving DecidableEq, Repr

/-- `shapely` `a.intersects(b)` on boxes: the closed point sets meet
(touching boundaries count). -/
def Rect.intersects (a b : Rect) : Bool :=
  decide (a.x0 ≤ b.x1) && decide (b.x0 ≤ a.x1) &&
  decide (a.y0 ≤ b.y1) && decide (b.y0 ≤ a.y1)

/-- `shapely` `a.intersection(b)` on boxes. -/
def Rect.inter (a b : Rect) : Rect :=
  ⟨max a.x0 b.x0, max a.y0 b.y0, min a.x1 b.x1, min a.y1 b.y1⟩

/-- `shapely` `.is_empty`: the rectangle contains no point. -/
def Rect.isEmptyB (r : Rect) : Bool :=
  decide (r.x1 < r.x0) || decide (r.y1 < r.y0)

/-- Membership of a point in a closed rectangle. -/
def Rect.containsPt (r : Rect) (px py : ℚ) : Bool :=
  decide (r.x0 ≤ px) && decide (px ≤ r.x1) &&
  decide (r.y0 ≤ py) && decide (py ≤ r.y1)

/-- A north-up affine raster transform: origin at the north-west corner
`(west, north)`, pixel sizes `xres`/`yres` (the `c`, `f`, `a`, `-e`
entries of a `rasterio` `Affine`). -/
structure GridTransform where
  west : ℚ
  north : ℚ
  xres : ℚ
  yres : ℚ
deriving DecidableEq, Repr

/-- `rasterio.transform.from_bounds`. -/
def from_bounds (w s e n : ℚ) (width height : Nat) : GridTransform :=
  ⟨w, n, (e - w) / width, (n - s) / height⟩

/-- `rasterio.transform.from_origin`. -/
def from_origin (w n xres yres : ℚ) : GridTransform :=
  ⟨w, n, xres, yres⟩

/-- The closed square covered by pixel `(row, col)` of a grid. -/
def pixelSquare (tr : GridTransform) (row col : Nat) : Rect :=
  ⟨tr.west + col * tr.xres, tr.north - (row + 1) * tr.yres,
   tr.west + (col + 1) * tr.xres, tr.north - row * tr.yres⟩

/-- Whether pixel `(row, col)` is burned for one geometry under the
given `all_touched` flag: with `all_touched=True` every pixel whose
square the geometry touches, otherwise only pixels whose center lies in
the geometry. -/
def burnPixel (allTouched : Bool) (g : Rect) (tr : GridTransform)
    (row col : Nat) : Bool :=
  if allTouched then g.intersects (pixelSquare tr row col)
  else g.containsPt (tr.west + (col + 1/2) * tr.xres)
                    (tr.north - (row + 1/2) * tr.yres)

/-- Model of `rasterio.features.rasterize` with `fill=0` and burn value
`1` on rectangle geometries: pixel `(row, col)` of the output grid. -/
def rasterize (geoms : List Rect) (tr : GridTransform) (allTouched : Bool)
    (row col : Nat) : Bool :=
  geoms.any (fun g => burnPixel allTouched g tr row col)

/-- The two coordinate reference systems the sources use. -/
inductive CRS where
  | epsg4326
  | epsg3857
deriving DecidableEq, Repr

/-- A `geopandas` `GeoDataFrame` restricted to what the rasterizers
read: a CRS and the geometry column. -/
structure GeoDataFrame where
  crs : CRS
  geoms : List Rect
deriving DecidableEq, Repr

/-- External geodesy, abstracted: `mercantile.bounds` (always WGS84
degrees), the Web-Mercator tile bounds produced by
`rasterio.warp.transform_bounds("EPSG:4326", "EPSG:3857", ...)`, and the
`pyproj`/`geopandas` geometry reprojection from EPSG:4326 to EPSG:3857.
The transcendental Web-Mercator formulas are not re-derived; theorems
quantify over this structure or instantiate it. -/
structure TileGeo where
  boundsWgs : Tile → Rect
  bounds3857 : Tile → Rect
  proj : Rect → Rect

/-- `GeoDataFrame.to_crs`: already being in the target CRS leaves the
frame unchanged, otherwise every geometry is reprojected and the CRS
tag updated. -/
def GeoDataFrame.to_crs (geo : TileGeo) (target : CRS) (gdf : GeoDataFrame) :
    GeoDataFrame :=
  if gdf.crs = target then gdf else ⟨target, gdf.geoms.map geo.proj⟩

/-- Python `int()` applied to a (here: exact rational) number:
truncation toward zero. -/
def truncToZero (q : ℚ) : ℤ :=
  if 0 ≤ q then ⌊q⌋ else -⌊-q⌋

/-- A raster mask result: the pixel grid together with its
georeferencing transform (meaningful on `row < height`,
`col < width`). -/
structure RasterizeResult where
  mask : Nat → Nat → Bool
  transform : GridTransform
  intersectCRS : CRS × CRS

/-! ## Tile rasterizer: `polygons_to_mask_tiles.rasterize_tile`

```python
def rasterize_tile(tile, polygons, out_path, resolution=1.1943285668550503):
    west, south, east, north = get_tile_bounds_web_mercator(tile)
    tile_geom_3857 = box(west, south, east, north)
    polygons_3857 = polygons.to_crs(epsg=3857)
    clipped = polygons_3857[polygons_3857.intersects(tile_geom_3857)]
    transform = from_bounds(west, south, east, north, 256, 256)
    if clipped.empty:
        mask = np.zeros((256, 256), dtype=np.uint8)
    else:
        clipped_geoms = []
        for geom in clipped.geometry:
            try:
                intersected = geom.intersection(tile_geom_3857)
                if not intersected.is_empty:
                    clipped_geoms.append((intersected, 1))
            except Exception:
                continue
        if clipped_geoms:
            mask = rasterize(clipped_geoms, out_shape=(256, 256),
                             transform=transform, fill=0, dtype="uint8",
                             all_touched=True)
        else:
            mask = np.zeros((256, 256), dtype=np.uint8)
    ...
```

`intersectCRS` records the CRS of the tile rectangle and of the polygon
frame as they stand at the `intersects`/`intersection` calls. -/

namespace PolygonsToMaskTiles

/-- `get_tile_bounds_web_mercator`: tile bounds transformed to
EPSG:3857. -/
def get_tile_bounds_web_mercator (geo : TileGeo) (t : Tile) : Rect :=
  geo.bounds3857 t

/-- The per-tile output transform `from_bounds(west, south, east,
north, 256, 256)` over the EPSG:3857 tile bounds. -/
def tileTransform (geo : TileGeo) (t : Tile) : GridTransform :=
  let b := get_tile_bounds_web_mercator geo t
  from_bounds b.x0 b.y0 b.x1 b.y1 256 256

/-- The broad-phase selection `polygons_3857[polygons_3857.intersects(tile_geom_3857)]`. -/
def clippedSelection (geo : TileGeo) (t : Tile) (polygons : GeoDataFrame) :
    List Rect :=
  let tile_geom_3857 := get_tile_bounds_web_mercator geo t
  let polygons_3857 := polygons.to_crs geo .epsg3857
  polygons_3857.geoms.filter (fun g => g.intersects tile_geom_3857)

/-- The burn list: each selected geometry clipped to the tile
rectangle, dropping clip results that are empty (the `try`/`except`
around the clip skips geometries the geometry engine rejects; rectangle
intersection does not reject). -/
def clipped_geoms (geo : TileGeo) (t : Tile) (polygons : GeoDataFrame) :
    List Rect :=
  let tile_geom_3857 := get_tile_bounds_web_mercator geo t
  ((clippedSelection geo t polygons).map (fun g => g.inter tile_geom_3857)).filter
    (fun g => ! g.isEmptyB)

/-- Embedding of `polygons_to_mask_tiles.rasterize_tile`. -/
def rasterize_tile (geo : TileGeo) (t : Tile) (polygons : GeoDataFrame) :
    RasterizeResult :=
  let transform := tileTransform geo t
  let crsPair := (CRS.epsg3857, (polygons.to_crs geo .epsg3857).crs)
  if (clippedSelection geo t polygons).isEmpty then
    ⟨fun _ _ => false, transform, crsPair⟩
  else if (clipped_geoms geo t polygons).isEmpty then
    ⟨fun _ _ => false, transform, crsPair⟩
  else
    ⟨fun row col => rasterize (clipped_geoms geo t polygons) transform true row col,
     transform, crsPair⟩

end PolygonsToMaskTiles

/-! ## Tile rasterizer variant: `rasterize_polygons.rasterize_tile`

```python
def load_polygons(geojson_path):
    gdf = gpd.read_file(geojson_path)
    return gdf.to_crs(epsg=3857)

def get_tile_bounds_and_transform(tile, size=256):
    bounds = mercantile.bounds(tile)
    geom = box(bounds.west, bounds.south, bounds.east, bounds.north)
    transform = from_bounds(bounds.west, bounds.south, bounds.east, bounds.north, size, size)
    return geom, transform

def rasterize_tile(tile, polygons, out_path):
    tile_geom, transform = get_tile_bounds_and_transform(tile)
    clipped = polygons[polygons.intersects(tile_geom)]
    if clipped.empty:
        mask = np.zeros((256, 256), dtype=np.uint8)
    else:
        mask = rasterize([(geom, 1) for geom in clipped.geometry.intersection(tile_geom)],
                         out_shape=(256, 256), transform=transform, fill=0, dtype="uint8")
    ...
```

Here the tile rectangle is built from `mercantile.bounds`, which are
geographic WGS84 degrees, and is never reprojected, while
`load_polygons` converts the polygons to EPSG:3857; the `rasterize`
call leaves `all_touched` at its default `False`. -/

namespace RasterizePolygons

/-- `load_polygons`: read and convert to EPSG:3857. -/
def load_polygons (geo : TileGeo) (gdfRaw : GeoDataFrame) : GeoDataFrame :=
  gdfRaw.to_crs geo .epsg3857

/-- `get_tile_bounds_and_transform` with the default `size=256`: the
tile box and transform over the WGS84-degree `mercantile.bounds`. -/
def get_tile_bounds_and_transform (geo : TileGeo) (t : Tile) :
    Rect × GridTransform :=
  let b := geo.boundsWgs t
  (b, from_bounds b.x0 b.y0 b.x1 b.y1 256 256)

/-- Embedding of `rasterize_polygons.rasterize_tile`. -/
def rasterize_tile (geo : TileGeo) (t : Tile) (polygons : GeoDataFrame) :
    RasterizeResult :=
  let tg := get_tile_bounds_and_transform geo t
  let crsPair := (CRS.epsg4326, polygons.crs)
  let clipped := polygons.geoms.filter (fun g => g.intersects tg.1)
  if clipped.isEmpty then
    ⟨fun _ _ => false, tg.2, crsPair⟩
  else
    ⟨fun row col =>
       rasterize (clipped.map (fun g => g.inter tg.1)) tg.2 false row col,
     tg.2, crsPair⟩

end RasterizePolygons

/-! ## Single full-extent mask: `rasterize_to_single_mask.rasterize_to_mask`

```python
def rasterize_to_mask(polygon_path, output_path, bbox_wgs84, resolution=1.0):
    polygons = gpd.read_file(polygon_path).to_crs(epsg=3857)
    west_m, south_m = transformer.transform(bbox_wgs84[0], bbox_wgs84[1])
    east_m, north_m = transformer.transform(bbox_wgs84[2], bbox_wgs84[3])
    width = int((east_m - west_m) / resolution)
    height = int((north_m - south_m) / resolution)
    transform = from_bounds(west_m, south_m, east_m, north_m, width, height)
    mask = rasterize([(geom, 1) for geom in polygons.geometry],
                     out_shape=(height, width), transform=transform,
                     fill=0, dtype="uint8", all_touched=False)
    ...
```
-/

/-- A full-extent raster mask file as the alignment pass reads it back:
the `c` and `f` entries of its transform, its size, and its pixel
data. -/
structure FullMask where
  c : ℚ
  f : ℚ
  width : Nat
  height : Nat
  data : Nat → Nat → Bool

namespace RasterizeToSingleMask

/-- Embedding of `rasterize_to_mask`; `bbox3857` is the
`pyproj`-transformed bounding box `(west_m, south_m, east_m, north_m)`
and `polygons3857` the EPSG:3857 geometry column. -/
def rasterize_to_mask (bbox3857 : Rect) (resolution : ℚ)
    (polygons3857 : List Rect) : FullMask :=
  let width := (truncToZero ((bbox3857.x1 - bbox3857.x0) / resolution)).toNat
  let height := (truncToZero ((bbox3857.y1 - bbox3857.y0) / resolution)).toNat
  let transform := from_bounds bbox3857.x0 bbox3857.y0 bbox3857.x1 bbox3857.y1 width height
  { c := transform.west, f := transform.north, width := width, height := height,
    data := fun row col => rasterize polygons3857 transform false row col }

end RasterizeToSingleMask

/-! ## Mask alignment pass: `tile_mask.tile_mask_from_naip_tiles`

```python
TILE_SIZE = 256
ZOOM = 17
RESOLUTION = 1.1943285668550503

for tile_path in tiles:
    try:
        z, x, y = map(int, tile_path.stem.split("_"))
        assert z == ZOOM
        bounds = mercantile.bounds(x=x, y=y, z=z)
        x_min, y_max = bounds.west, bounds.north
        col = int((x_min - transform.c) / RESOLUTION)
        row = int((transform.f - y_max) / RESOLUTION)
        if col < 0 or row < 0 or col + TILE_SIZE > width or row + TILE_SIZE > height:
            continue
        window = Window(col_off=col, row_off=row, width=TILE_SIZE, height=TILE_SIZE)
        data = src.read(1, window=window)
        out_transform = from_origin(x_min, y_max, RESOLUTION, RESOLUTION)
        ...write data...
    except Exception as e:
        print(f"Failed on tile {tile_path.name}: {e}")
```
-/

namespace TileMask

/-- `TILE_SIZE = 256`. -/
def TILE_SIZE : Nat := 256

/-- `ZOOM = 17`. -/
def ZOOM : Nat := 17

/-- `RESOLUTION = 1.1943285668550503` (the hard-coded zoom-17 pixel
size), embedded as the exact decimal rational. -/
def RESOLUTION : ℚ := 11943285668550503 / 10000000000000000

/-- `col = int((x_min - transform.c) / RESOLUTION)` where `x_min` is
`mercantile.bounds(...).west`. -/
def colOf (geo : TileGeo) (src : FullMask) (t : Tile) : ℤ :=
  truncToZero (((geo.boundsWgs t).x0 - src.c) / RESOLUTION)

/-- `row = int((transform.f - y_max) / RESOLUTION)` where `y_max` is
`mercantile.bounds(...).north`. -/
def rowOf (geo : TileGeo) (src : FullMask) (t : Tile) : ℤ :=
  truncToZero ((src.f - (geo.boundsWgs t).y1) / RESOLUTION)

/-- The skip condition: the computed fixed-size pixel window runs
outside the full mask's extent. -/
def windowOutside (geo : TileGeo) (src : FullMask) (t : Tile) : Prop :=
  colOf geo src t < 0 ∨ rowOf geo src t < 0 ∨
  colOf geo src t + TILE_SIZE > (src.width : ℤ) ∨
  rowOf geo src t + TILE_SIZE > (src.height : ℤ)

instance (geo : TileGeo) (src : FullMask) (t : Tile) :
    Decidable (windowOutside geo src t) := by
  unfold windowOutside; infer_instance

/-- The pixel window `src.read(1, window=Window(col, row, 256, 256))`
sliced out of the full mask. -/
def sliceData (geo : TileGeo) (src : FullMask) (t : Tile) :
    Nat → Nat → Bool :=
  fun r c => src.data ((rowOf geo src t).toNat + r) ((colOf geo src t).toNat + c)

/-- What the pass does with one tile address: write a sliced mask,
skip it because its window is not covered by the full mask, or skip it
because the `assert z == ZOOM` raised (caught by the `except`, which
logs and continues). -/
inductive TileOutcome where
  | written (mask : Nat → Nat → Bool) (tr : GridTransform)
  | notCovered
  | badZoom

/-- Processing of a single tile address by the loop body. -/
def processTile (geo : TileGeo) (src : FullMask) (t : Tile) : TileOutcome :=
  if t.z ≠ ZOOM then .badZoom
  else if windowOutside geo src t then .notCovered
  else
    .written (sliceData geo src t)
      (from_origin (geo.boundsWgs t).x0 (geo.boundsWgs t).y1 RESOLUTION RESOLUTION)

/-- Embedding of `tile_mask_from_naip_tiles`: every tile address found
in the imagery directory is processed independently; no outcome aborts
the pass. -/
def tile_mask_from_naip_tiles (geo : TileGeo) (src : FullMask)
    (tiles : List Tile) : List (Tile × TileOutcome) :=
  tiles.map (fun t => (t, processTile geo src t))

/-- The grid-aligned tile rectangle with north-west corner at pixel
offset `(row, col)` of a mask grid with origin `(C, F)` and pixel size
`RESOLUTION`: the hypothesis under which the alignment pass and the
per-tile rasterizer can agree. -/
def tileRect (C F : ℚ) (col row : Nat) : Rect :=
  ⟨C + col * RESOLUTION, F - (row + 256) * RESOLUTION,
   C + (col + 256) * RESOLUTION, F - row * RESOLUTION⟩

end TileMask

/-- A concrete geodesy used to instantiate theorems: every tile has the
given rectangle as bounds in both coordinate systems and reprojection
is the identity. -/
def constTileGeo (r : Rect) : TileGeo :=
  ⟨fun _ => r, fun _ => r, fun g => g⟩

/-! Concrete scenario comparing the alignment pass with the per-tile
rasterizer: one 256×256 tile whose north-west corner sits exactly at
the full mask's origin, and one thin polygon strip (of positive area,
spanning the tile's width, lying inside the bottom pixel row but clear
of its pixel centres). -/

/-- The thin strip: `y ∈ [0.6·RESOLUTION, 0.9·RESOLUTION]`, full tile
width. -/
def alignStrip : Rect :=
  ⟨0, 3 * TileMask.RESOLUTION / 5, 256 * TileMask.RESOLUTION,
   9 * TileMask.RESOLUTION / 10⟩

/-- The common bounding box of the full mask and of the tile (both
coordinate systems agree on it). -/
def alignBBox : Rect :=
  ⟨0, 0, 256 * TileMask.RESOLUTION, 256 * TileMask.RESOLUTION⟩

/-- Geodesy of the scenario. -/
def alignGeo : TileGeo := constTileGeo alignBBox

/-- The tile address of the scenario. -/
def alignTile : Tile := ⟨0, 0, 17⟩

/-- The full mask of the scenario, produced by the repository's
single-mask rasterizer (`all_touched=False`) at `RESOLUTION`. -/
def alignFull : FullMask :=
  RasterizeToSingleMask.rasterize_to_mask alignBBox TileMask.RESOLUTION [alignStrip]

/-- A grid-aligned geodesy for instantiating the amended alignment
equivalence: the tile sits at pixel offset `(0, 0)` of a mask with
origin `(0, 256·RESOLUTION)`. -/
def alignWitnessGeo : TileGeo :=
  constTileGeo (TileMask.tileRect 0 (256 * TileMask.RESOLUTION) 0 0)

/-- A full mask burned with the all-touched rule on that aligned grid
(from the empty polygon collection). -/
def alignWitnessSrc : FullMask :=
  ⟨0, 256 * TileMask.RESOLUTION, 256, 256,
   fun r c => rasterize []
     (from_origin 0 (256 * TileMask.RESOLUTION) TileMask.RESOLUTION TileMask.RESOLUTION)
     true r c⟩

/-! ## Theorems -/

/-- Claim C3: for every tile address and every network/decoder
environment, `download_tile` never raises past its boundary: it returns
an outcome paired with the tile address, `success = false` whenever the
request raised (timeout), the status was not 200 (in particular any
non-2xx status), or the decode or write failed, and `success = true`
exactly when a status-200 response was fetched, decoded and written. -/
theorem download_tile_uniform_failure (w : FetchWorld) (t : Tile) :
    (download_tile w t).2 = t ∧
    ((download_tile w t).1 = true ↔
      ∃ r, w.response t = some r ∧ r.status_code = 200 ∧
        r.decodeOk = true ∧ r.saveOk = true) := by
  unfold download_tile
  rcases h : w.response t with _ | r
  · simp
  · dsimp only
    constructor
    · split_ifs <;> rfl
    · split_ifs with h1 h2 h3
      · exact ⟨fun _ => ⟨r, rfl, h1, h2, h3⟩, fun _ => rfl⟩
      all_goals
        refine ⟨fun hc => absurd hc (by simp), fun hc => ?_⟩
        obtain ⟨r', hr', hs, hd, hsv⟩ := hc
        obtain rfl : r' = r := by injection hr' with h'; exact h'.symm
        simp_all

/-- Claim C1 (the code contradicts it): with `max_retries = 2` and a
fetch that always fails tile `T = (z=17, x=5, y=7)`, the manager
executes exactly one retry round — not `max_retries = 2` — before
returning failure; the final failure log still lists `T`.  The loop
body of `download_naip_imagery` returns on both branches of its final
`if`/`if`, so no second retry round is reachable. -/
theorem retry_exhaustion_single_round :
    (download_naip_imagery (fun _ _ => false) [⟨5, 7, 17⟩] 2).success = false ∧
    (download_naip_imagery (fun _ _ => false) [⟨5, 7, 17⟩] 2).retryRounds = 1 ∧
    (download_naip_imagery (fun _ _ => false) [⟨5, 7, 17⟩] 2).state.failedFile
      = some [⟨5, 7, 17⟩] := by
  refine ⟨rfl, rfl, rfl⟩

/-- Claim C4: in a run over tile set `{T}` where the fetch fails `T` in
the initial round and succeeds in the first retry round, the manager
renames the round-1 failure log to the numbered backup
`failed_tiles_backup_1.txt` before the retry round runs; it reports
overall success after that one retry round, the backup still holds the
round-1 log contents `[T]` unchanged, and no failure log remains. -/
theorem retry_backup_preserved (fetch : Nat → Tile → Bool) (T : Tile)
    (maxRetries : Nat) (hmr : 1 ≤ maxRetries)
    (hf0 : fetch 0 T = false) (hf1 : fetch 1 T = true) :
    (download_naip_imagery fetch [T] maxRetries).success = true ∧
    (download_naip_imagery fetch [T] maxRetries).retryRounds = 1 ∧
    (download_naip_imagery fetch [T] maxRetries).state.backups = [(1, [T])] ∧
    (download_naip_imagery fetch [T] maxRetries).state.failedFile = none := by
  obtain ⟨rem, rfl⟩ : ∃ rem, maxRetries = rem + 1 := ⟨maxRetries - 1, by omega⟩
  have h0 : download_naip (fetch 0) [T] ⟨none, []⟩ = ⟨some [T], []⟩ := by
    simp [download_naip, hf0]
  have h1 : retryLoop fetch (rem + 1) 0 ⟨some [T], []⟩
      = ⟨true, 1, ⟨none, [(1, [T])]⟩⟩ := by
    simp [retryLoop, download_failed_naip, hf1]
  unfold download_naip_imagery
  rw [h0, h1]
  exact ⟨rfl, rfl, rfl, rfl⟩

/-- Witness for `retry_backup_preserved`: a concrete fetch that fails
everything in round 0 and succeeds from round 1 on. -/
theorem retry_backup_preserved_witness :
    (1 ≤ 2) ∧
    ((download_naip_imagery (fun r _ => decide (1 ≤ r)) [⟨1, 2, 17⟩] 2).success = true ∧
     (download_naip_imagery (fun r _ => decide (1 ≤ r)) [⟨1, 2, 17⟩] 2).retryRounds = 1 ∧
     (download_naip_imagery (fun r _ => decide (1 ≤ r)) [⟨1, 2, 17⟩] 2).state.backups
       = [(1, [⟨1, 2, 17⟩])] ∧
     (download_naip_imagery (fun r _ => decide (1 ≤ r)) [⟨1, 2, 17⟩] 2).state.failedFile
       = none) :=
  ⟨by decide,
   retry_backup_preserved (fun r _ => decide (1 ≤ r)) ⟨1, 2, 17⟩ 2
     (by decide) (by decide) (by decide)⟩

/-- Claim C9, counterexample part: with a perfectly valid bounding box
and the invalid zoom level `-1` (outside the tile scheme's integer
range), the pre-fetch validation of `data_pipeline` raises nothing —
no `InvalidZoomOrBoundsError` (nor any error) is produced before tile
fetching begins, because zoom is never validated. -/
theorem zoom_never_prevalidated :
    pipeline_prevalidation 0 0 1 1 (-1) = none := by
  norm_num [pipeline_prevalidation, validate_bbox]

/-- Claim C9, amended: before any tile fetching, `data_pipeline` fails
(raising `ValueError`, its bounding-box error) exactly when the
bounding box is degenerate or out of range — a longitude outside
`[-180, 180]`, a latitude outside `[-90, 90]`, `west ≥ east` or
`south ≥ north`; the zoom level is not part of this validation. -/
theorem bbox_prevalidation_characterization (w s e n : ℚ) (z : ℤ) :
    pipeline_prevalidation w s e n z = some PipelineError.invalidBBox ↔
      (w < -180 ∨ 180 < w ∨ e < -180 ∨ 180 < e ∨
       s < -90 ∨ 90 < s ∨ n < -90 ∨ 90 < n ∨ e ≤ w ∨ n ≤ s) := by
  have hval : validate_bbox w s e n = false ↔
      (w < -180 ∨ 180 < w ∨ e < -180 ∨ 180 < e ∨
       s < -90 ∨ 90 < s ∨ n < -90 ∨ 90 < n ∨ e ≤ w ∨ n ≤ s) := by
    unfold validate_bbox
    by_cases hA : (-180 ≤ w ∧ w ≤ 180 ∧ -180 ≤ e ∧ e ≤ 180)
    · rw [if_neg (not_not_intro hA)]
      by_cases hB : (-90 ≤ s ∧ s ≤ 90 ∧ -90 ≤ n ∧ n ≤ 90)
      · rw [if_neg (not_not_intro hB)]
        by_cases hC : w ≥ e
        · rw [if_pos hC]
          exact iff_of_true rfl (by rw [ge_iff_le] at hC; tauto)
        · rw [if_neg hC]
          by_cases hD : s ≥ n
          · rw [if_pos hD]
            exact iff_of_true rfl (by rw [ge_iff_le] at hD; tauto)
          · rw [if_neg hD]
            refine iff_of_false (by simp) ?_
            obtain ⟨hw1, hw2, he1, he2⟩ := hA
            obtain ⟨hs1, hs2, hn1, hn2⟩ := hB
            rw [ge_iff_le, not_le] at hC hD
            rintro (h | h | h | h | h | h | h | h | h | h) <;> linarith
      · rw [if_pos hB]
        exact iff_of_true rfl (by simp only [not_and_or, not_le] at hB; tauto)
    · rw [if_pos hA]
      exact iff_of_true rfl (by simp only [not_and_or, not_le] at hA; tauto)
  constructor
  · intro hp
    apply hval.mp
    by_contra hvb
    rw [Bool.not_eq_false] at hvb
    unfold pipeline_prevalidation at hp
    rw [if_neg (by simp [hvb])] at hp
    exact Option.noConfusion hp
  · intro hb
    unfold pipeline_prevalidation
    rw [if_pos (by simp [hval.mpr hb])]

/-! Lemmas for the failure-log line roundtrip. -/

theorem digit_props {d : Nat} (h : d < 10) :
    charDigit (digitChar d) = d ∧ digitChar d ≠ ',' ∧
      isSpaceChar (digitChar d) = false := by
  interval_cases d <;> exact ⟨by decide, by decide, by decide⟩

theorem natToChars_entry (n : Nat) :
    ∀ c ∈ natToChars n, c ≠ ',' ∧ isSpaceChar c = false := by
  intro c hc
  unfold natToChars at hc
  split_ifs at hc with h
  · rw [List.mem_singleton] at hc
    subst hc
    exact ⟨by decide, by decide⟩
  · rw [List.mem_map] at hc
    obtain ⟨d, hd, rfl⟩ := hc
    have hd10 : d < 10 :=
      Nat.digits_lt_base (by norm_num) (List.mem_reverse.mp hd)
    exact (digit_props hd10).2

theorem charsToNat_natToChars (n : Nat) : charsToNat (natToChars n) = n := by
  unfold natToChars charsToNat
  split_ifs with h
  · subst h; decide
  · have hmap : (Nat.digits 10 n).map (charDigit ∘ digitChar) = Nat.digits 10 n := by
      calc (Nat.digits 10 n).map (charDigit ∘ digitChar)
          = (Nat.digits 10 n).map id :=
            List.map_congr_left
              (fun d hd => (digit_props (Nat.digits_lt_base (by norm_num) hd)).1)
        _ = Nat.digits 10 n := List.map_id _
    simp only [List.map_map, List.map_reverse, List.reverse_reverse, hmap,
      Nat.ofDigits_digits]

theorem dropWhile_false {p : Char → Bool} :
    ∀ l : List Char, (∀ c ∈ l, p c = false) → l.dropWhile p = l
  | [], _ => rfl
  | c :: l, h => by
    rw [List.dropWhile_cons, h c (List.mem_cons_self c l)]
    simp

theorem stripChars_eq_self {cs : List Char}
    (h : ∀ c ∈ cs, isSpaceChar c = false) : stripChars cs = cs := by
  unfold stripChars
  rw [dropWhile_false cs h,
    dropWhile_false cs.reverse (fun c hc => h c (List.mem_reverse.mp hc)),
    List.reverse_reverse]

theorem splitComma_cons_comma (l : List Char) :
    splitComma (',' :: l) = [] :: splitComma l := by
  simp [splitComma]

theorem splitComma_cons_ne (c : Char) (l : List Char) (hc : c ≠ ',') :
    splitComma (c :: l) =
      match splitComma l with
      | [] => [[c]]
      | f :: fs => (c :: f) :: fs := by
  simp only [splitComma, if_neg hc]

theorem splitComma_no_comma :
    ∀ l : List Char, (∀ c ∈ l, c ≠ ',') → splitComma l = [l]
  | [], _ => rfl
  | c :: l, h => by
    have ih := splitComma_no_comma l (fun x hx => h x (List.mem_cons_of_mem c hx))
    rw [splitComma_cons_ne c l (h c (List.mem_cons_self c l)), ih]

theorem splitComma_append (as : List Char) (h : ∀ c ∈ as, c ≠ ',')
    (t : List Char) : splitComma (as ++ ',' :: t) = as :: splitComma t := by
  induction as with
  | nil => rw [List.nil_append, splitComma_cons_comma]
  | cons c as ih =>
    have ihh := ih (fun x hx => h x (List.mem_cons_of_mem c hx))
    rw [List.cons_append, splitComma_cons_ne c _ (h c (List.mem_cons_self c as)), ihh]

/-- Claim C10: the failure-log write format and the retry reader's
parse are mutually inverse — for every tile address, writing the line
`f"{z},{x},{y}"` and parsing it back (`zoom, x, y = line.strip().split(",")`,
then `Tile(int(x), int(y), int(zoom))`) reconstructs exactly the same
tile address. -/
theorem failed_line_roundtrip (t : Tile) :
    parseFailedLine (writeFailedLine t) = some t := by
  unfold parseFailedLine writeFailedLine
  have hnospace : ∀ c ∈ natToChars t.z ++ ',' :: (natToChars t.x ++ ',' :: natToChars t.y),
      isSpaceChar c = false := by
    intro c hc
    simp only [List.mem_append, List.mem_cons] at hc
    rcases hc with hc | hc | hc
    · exact (natToChars_entry t.z c hc).2
    · subst hc; decide
    · rcases hc with hc | hc
      · exact (natToChars_entry t.x c hc).2
      · rcases hc with hc | hc
        · subst hc; decide
        · exact (natToChars_entry t.y c hc).2
  rw [stripChars_eq_self hnospace,
    splitComma_append _ (fun c hc => (natToChars_entry t.z c hc).1) _,
    splitComma_append _ (fun c hc => (natToChars_entry t.x c hc).1) _,
    splitComma_no_comma _ (fun c hc => (natToChars_entry t.y c hc).1)]
  dsimp only
  rw [charsToNat_natToChars, charsToNat_natToChars, charsToNat_natToChars]

/-! Helper lemmas about the tile rasterizers. -/

theorem to_crs_crs (geo : TileGeo) (target : CRS) (gdf : GeoDataFrame) :
    (gdf.to_crs geo target).crs = target := by
  unfold GeoDataFrame.to_crs
  split_ifs with h
  · exact h
  · rfl

theorem clipped_geoms_of_selection_empty (geo : TileGeo) (t : Tile)
    (polygons : GeoDataFrame)
    (h : (PolygonsToMaskTiles.clippedSelection geo t polygons).isEmpty = true) :
    PolygonsToMaskTiles.clipped_geoms geo t polygons = [] := by
  unfold PolygonsToMaskTiles.clipped_geoms
  rw [List.isEmpty_iff.mp h]
  rfl

/-- The mask produced by `polygons_to_mask_tiles.rasterize_tile` is, at
every pixel, the all-touched burn of the clipped geometry list: all
three branches of the source agree with this formula. -/
theorem p2mt_mask_any (geo : TileGeo) (t : Tile) (polygons : GeoDataFrame)
    (row col : Nat) :
    (PolygonsToMaskTiles.rasterize_tile geo t polygons).mask row col =
      (PolygonsToMaskTiles.clipped_geoms geo t polygons).any
        (fun g =>
          g.intersects (pixelSquare (PolygonsToMaskTiles.tileTransform geo t) row col)) := by
  unfold PolygonsToMaskTiles.rasterize_tile
  by_cases h1 : (PolygonsToMaskTiles.clippedSelection geo t polygons).isEmpty = true
  · rw [if_pos h1, clipped_geoms_of_selection_empty geo t polygons h1]
    rfl
  · rw [if_neg h1]
    by_cases h2 : (PolygonsToMaskTiles.clipped_geoms geo t polygons).isEmpty = true
    · rw [if_pos h2, List.isEmpty_iff.mp h2]
      rfl
    · rw [if_neg h2]
      rfl

/-- Claim C7: for every tile, if no polygon survives the broad-phase
selection and the clipping (in particular for an empty polygon
collection), `polygons_to_mask_tiles.rasterize_tile` produces a
successful result: an all-zero mask of the fixed 256×256 size together
with the georeferencing transform derived from the tile's EPSG:3857
bounds — not an error. -/
theorem rasterize_tile_no_survivors_zero_mask (geo : TileGeo) (t : Tile)
    (polygons : GeoDataFrame)
    (h : PolygonsToMaskTiles.clipped_geoms geo t polygons = []) :
    (∀ row col, (PolygonsToMaskTiles.rasterize_tile geo t polygons).mask row col = false) ∧
    (PolygonsToMaskTiles.rasterize_tile geo t polygons).transform =
      from_bounds (geo.bounds3857 t).x0 (geo.bounds3857 t).y0
        (geo.bounds3857 t).x1 (geo.bounds3857 t).y1 256 256 := by
  constructor
  · intro row col
    rw [p2mt_mask_any, h]
    rfl
  · unfold PolygonsToMaskTiles.rasterize_tile
    split_ifs <;> rfl

/-- Witness for `rasterize_tile_no_survivors_zero_mask`: the empty
polygon collection over a concrete tile. -/
theorem rasterize_tile_no_survivors_zero_mask_witness :
    (PolygonsToMaskTiles.clipped_geoms (constTileGeo ⟨0, 0, 256, 256⟩) ⟨0, 0, 17⟩
        ⟨CRS.epsg3857, []⟩ = []) ∧
    (PolygonsToMaskTiles.rasterize_tile (constTileGeo ⟨0, 0, 256, 256⟩) ⟨0, 0, 17⟩
        ⟨CRS.epsg3857, []⟩).mask 0 0 = false ∧
    (PolygonsToMaskTiles.rasterize_tile (constTileGeo ⟨0, 0, 256, 256⟩) ⟨0, 0, 17⟩
        ⟨CRS.epsg3857, []⟩).transform =
      from_bounds 0 0 256 256 256 256 :=
  ⟨rfl,
   (rasterize_tile_no_survivors_zero_mask (constTileGeo ⟨0, 0, 256, 256⟩)
     ⟨0, 0, 17⟩ ⟨CRS.epsg3857, []⟩ rfl).1 0 0,
   (rasterize_tile_no_survivors_zero_mask (constTileGeo ⟨0, 0, 256, 256⟩)
     ⟨0, 0, 17⟩ ⟨CRS.epsg3857, []⟩ rfl).2⟩

/-- Claim C8: in the mask alignment pass, every zoom-17 tile address
whose computed fixed-size window runs outside the full mask's extent
(negative row/column offset, or offset plus 256 exceeding the mask's
width or height) yields the `notCovered` outcome: no output mask (in
particular no zero-padded one) is produced for it, and the pass still
processes every other tile address (it does not abort). -/
theorem window_outside_skipped (geo : TileGeo) (src : FullMask)
    (tiles : List Tile) (t : Tile) (hz : t.z = TileMask.ZOOM)
    (hout : TileMask.windowOutside geo src t) :
    TileMask.processTile geo src t = TileMask.TileOutcome.notCovered ∧
    (t ∈ tiles →
      (t, TileMask.TileOutcome.notCovered) ∈
        TileMask.tile_mask_from_naip_tiles geo src tiles) ∧
    (TileMask.tile_mask_from_naip_tiles geo src tiles).length = tiles.length ∧
    (∀ u ∈ tiles,
      (u, TileMask.processTile geo src u) ∈
        TileMask.tile_mask_from_naip_tiles geo src tiles) := by
  have hp : TileMask.processTile geo src t = TileMask.TileOutcome.notCovered := by
    unfold TileMask.processTile
    rw [if_neg (fun hne => hne hz), if_pos hout]
  refine ⟨hp, fun ht => ?_, List.length_map _ _, fun u hu => ?_⟩
  · unfold TileMask.tile_mask_from_naip_tiles
    have := List.mem_map_of_mem (fun u => (u, TileMask.processTile geo src u)) ht
    simpa [hp] using this
  · unfold TileMask.tile_mask_from_naip_tiles
    exact List.mem_map_of_mem (fun u => (u, TileMask.processTile geo src u)) hu

/-- Witness for `window_outside_skipped`: a 10×10 full mask cannot
cover any 256×256 window, so the tile with offsets `(0, 0)` is
skipped while the pass continues. -/
theorem window_outside_skipped_witness :
    ((⟨0, 0, 17⟩ : Tile).z = TileMask.ZOOM) ∧
    TileMask.windowOutside (constTileGeo ⟨0, 0, 1, 1⟩)
      ⟨0, 1, 10, 10, fun _ _ => false⟩ ⟨0, 0, 17⟩ ∧
    TileMask.processTile (constTileGeo ⟨0, 0, 1, 1⟩)
      ⟨0, 1, 10, 10, fun _ _ => false⟩ ⟨0, 0, 17⟩ =
      TileMask.TileOutcome.notCovered ∧
    ((⟨0, 0, 17⟩ : Tile), TileMask.TileOutcome.notCovered) ∈
      TileMask.tile_mask_from_naip_tiles (constTileGeo ⟨0, 0, 1, 1⟩)
        ⟨0, 1, 10, 10, fun _ _ => false⟩ [⟨0, 0, 17⟩] := by
  have hz : (⟨0, 0, 17⟩ : Tile).z = TileMask.ZOOM := rfl
  have hout : TileMask.windowOutside (constTileGeo ⟨0, 0, 1, 1⟩)
      ⟨0, 1, 10, 10, fun _ _ => false⟩ ⟨0, 0, 17⟩ := by
    have hcol : TileMask.colOf (constTileGeo ⟨0, 0, 1, 1⟩)
        ⟨0, 1, 10, 10, fun _ _ => false⟩ ⟨0, 0, 17⟩ = 0 := by
      unfold TileMask.colOf constTileGeo truncToZero
      norm_num
    unfold TileMask.windowOutside
    rw [hcol]
    norm_num [TileMask.TILE_SIZE]
  have h := window_outside_skipped (constTileGeo ⟨0, 0, 1, 1⟩)
    ⟨0, 1, 10, 10, fun _ _ => false⟩ [⟨0, 0, 17⟩] ⟨0, 0, 17⟩ hz hout
  exact ⟨hz, hout, h.1, h.2.1 (List.mem_singleton.mpr rfl)⟩

/-- Claim C5, amended: in the pipeline's tile rasterizer
(`polygons_to_mask_tiles.rasterize_tile`) the polygon collection is
reprojected to EPSG:3857 — the projected CRS in which the tile
rectangle is built — before the broad-phase `intersects` and the
clipping `intersection`, so for every tile and polygon collection both
operations run with the two operands in the same projected CRS.  (In
the `rasterize_polygons` variant this fails: see the
counterexample.) -/
theorem p2mt_intersection_same_crs (geo : TileGeo) (t : Tile)
    (polygons : GeoDataFrame) :
    (PolygonsToMaskTiles.rasterize_tile geo t polygons).intersectCRS =
      (CRS.epsg3857, CRS.epsg3857) := by
  unfold PolygonsToMaskTiles.rasterize_tile
  have hcrs := to_crs_crs geo CRS.epsg3857 polygons
  split_ifs <;> simp [hcrs]

/-- Claim C5, counterexample: in `rasterize_polygons.rasterize_tile`
the broad-phase intersection test runs between the tile rectangle in
geographic WGS84 degrees (built from `mercantile.bounds` and never
reprojected) and the polygons in projected EPSG:3857 (produced by
`load_polygons`): at this concrete input the CRS pair at the
`intersects`/`intersection` calls is `(EPSG:4326, EPSG:3857)` — not one
common projected CRS. -/
theorem rp_intersection_crs_mismatch :
    (RasterizePolygons.rasterize_tile (constTileGeo ⟨0, 0, 256, 256⟩) ⟨0, 0, 17⟩
        (RasterizePolygons.load_polygons (constTileGeo ⟨0, 0, 256, 256⟩)
          ⟨CRS.epsg4326, [⟨0, 0, 10, 10⟩]⟩)).intersectCRS =
      (CRS.epsg4326, CRS.epsg3857) ∧
    CRS.epsg4326 ≠ CRS.epsg3857 := by
  refine ⟨?_, by decide⟩
  unfold RasterizePolygons.rasterize_tile
  dsimp only
  split_ifs <;> rfl

/-- Claim C6, amended: the pipeline's tile rasterizer
(`polygons_to_mask_tiles.rasterize_tile`) burns with the inclusive
all-touched rule: for every clipped geometry in its burn list, every
pixel of the fixed 256×256 grid whose closed square the geometry's
boundary or interior touches is 1 in the output mask.  (The
`rasterize_polygons` variant leaves `all_touched` at its default
centre-sampling `False` and violates this: see the counterexample.) -/
theorem p2mt_all_touched (geo : TileGeo) (t : Tile) (polygons : GeoDataFrame)
    (g : Rect) (row col : Nat)
    (hg : g ∈ PolygonsToMaskTiles.clipped_geoms geo t polygons)
    (ht : g.intersects
      (pixelSquare (PolygonsToMaskTiles.tileTransform geo t) row col) = true) :
    (PolygonsToMaskTiles.rasterize_tile geo t polygons).mask row col = true := by
  rw [p2mt_mask_any]
  exact List.any_eq_true.mpr ⟨g, hg, ht⟩

/-- Witness for `p2mt_all_touched`: a square polygon clipped to a
concrete tile touches pixel `(255, 0)` and that pixel is burned. -/
theorem p2mt_all_touched_witness :
    ((⟨0, 0, 10, 10⟩ : Rect) ∈
      PolygonsToMaskTiles.clipped_geoms (constTileGeo ⟨0, 0, 2560, 2560⟩)
        ⟨0, 0, 17⟩ ⟨CRS.epsg3857, [⟨0, 0, 10, 10⟩]⟩) ∧
    ((⟨0, 0, 10, 10⟩ : Rect).intersects
      (pixelSquare (PolygonsToMaskTiles.tileTransform
        (constTileGeo ⟨0, 0, 2560, 2560⟩) ⟨0, 0, 17⟩) 255 0) = true) ∧
    (PolygonsToMaskTiles.rasterize_tile (constTileGeo ⟨0, 0, 2560, 2560⟩)
      ⟨0, 0, 17⟩ ⟨CRS.epsg3857, [⟨0, 0, 10, 10⟩]⟩).mask 255 0 = true := by
  have hg : (⟨0, 0, 10, 10⟩ : Rect) ∈
      PolygonsToMaskTiles.clipped_geoms (constTileGeo ⟨0, 0, 2560, 2560⟩)
        ⟨0, 0, 17⟩ ⟨CRS.epsg3857, [⟨0, 0, 10, 10⟩]⟩ := by decide
  have ht : (⟨0, 0, 10, 10⟩ : Rect).intersects
      (pixelSquare (PolygonsToMaskTiles.tileTransform
        (constTileGeo ⟨0, 0, 2560, 2560⟩) ⟨0, 0, 17⟩) 255 0) = true := by
    simp only [PolygonsToMaskTiles.tileTransform,
      PolygonsToMaskTiles.get_tile_bounds_web_mercator, constTileGeo, from_bounds,
      pixelSquare, Rect.intersects, Bool.and_eq_true, decide_eq_true_eq]
    norm_num
  exact ⟨hg, ht, p2mt_all_touched _ _ _ _ 255 0 hg ht⟩

/-- Claim C6, counterexample: in `rasterize_polygons.rasterize_tile`
(`rasterize` called without `all_touched`, i.e. centre sampling), the
thin strip `y ∈ [6, 9]` of a 2560-unit tile survives selection and
clipping and touches the closed square of pixel `(255, 0)` (whose
square is `[0,10] × [0,10]`), yet that pixel is 0 in the output mask —
the burn is not all-touched. -/
theorem rp_not_all_touched :
    ((⟨0, 6, 2560, 9⟩ : Rect).intersects ⟨0, 0, 2560, 2560⟩ = true) ∧
    ((Rect.inter ⟨0, 6, 2560, 9⟩ ⟨0, 0, 2560, 2560⟩).intersects
        (pixelSquare (RasterizePolygons.get_tile_bounds_and_transform
          (constTileGeo ⟨0, 0, 2560, 2560⟩) ⟨0, 0, 17⟩).2 255 0) = true) ∧
    (RasterizePolygons.rasterize_tile (constTileGeo ⟨0, 0, 2560, 2560⟩)
        ⟨0, 0, 17⟩ ⟨CRS.epsg3857, [⟨0, 6, 2560, 9⟩]⟩).mask 255 0 = false := by
  refine ⟨by decide, ?_, ?_⟩
  · simp only [Rect.inter, RasterizePolygons.get_tile_bounds_and_transform,
      constTileGeo, from_bounds, pixelSquare, Rect.intersects, Bool.and_eq_true,
      decide_eq_true_eq]
    norm_num
  · unfold RasterizePolygons.rasterize_tile
    dsimp only
    rw [if_neg (by decide)]
    simp only [RasterizePolygons.get_tile_bounds_and_transform, constTileGeo,
      from_bounds, rasterize, burnPixel, Rect.containsPt, Rect.inter,
      List.filter, Rect.intersects, List.map, List.any, Bool.if_false_left,
      Bool.and_eq_true, decide_eq_true_eq]
    norm_num

/-! Helper lemmas about rectangle clipping, used to relate the burn
list of the per-tile rasterizer to the unclipped polygon list. -/

theorem intersects_iff {a b : Rect} :
    a.intersects b = true ↔
      (a.x0 ≤ b.x1 ∧ b.x0 ≤ a.x1 ∧ a.y0 ≤ b.y1 ∧ b.y0 ≤ a.y1) := by
  simp [Rect.intersects, and_assoc]

theorem isEmptyB_false_iff {r : Rect} :
    r.isEmptyB = false ↔ (r.x0 ≤ r.x1 ∧ r.y0 ≤ r.y1) := by
  simp [Rect.isEmptyB, not_or, not_lt]

/-- Clipping a geometry to the tile rectangle does not change whether
it touches a pixel square lying inside the tile rectangle. -/
theorem inter_touch_eq {g tb sq : Rect}
    (hwx : sq.x0 ≤ sq.x1) (hwy : sq.y0 ≤ sq.y1)
    (h1 : tb.x0 ≤ sq.x0) (h2 : sq.x1 ≤ tb.x1)
    (h3 : tb.y0 ≤ sq.y0) (h4 : sq.y1 ≤ tb.y1) :
    (g.inter tb).intersects sq = g.intersects sq := by
  rw [Bool.eq_iff_iff, intersects_iff, intersects_iff]
  unfold Rect.inter
  dsimp only
  rw [max_le_iff, max_le_iff, le_min_iff, le_min_iff]
  constructor
  · rintro ⟨⟨ha, _⟩, ⟨hb, _⟩, ⟨hc, _⟩, ⟨hd, _⟩⟩
    exact ⟨ha, hb, hc, hd⟩
  · rintro ⟨ha, hb, hc, hd⟩
    exact ⟨⟨ha, by linarith⟩, ⟨hb, by linarith⟩, ⟨hc, by linarith⟩, ⟨hd, by linarith⟩⟩

/-- A geometry touching a pixel square inside the tile rectangle also
touches the tile rectangle (so the broad-phase filter keeps it). -/
theorem touch_tile_of_touch_sq {g tb sq : Rect}
    (hwx : sq.x0 ≤ sq.x1) (hwy : sq.y0 ≤ sq.y1)
    (h1 : tb.x0 ≤ sq.x0) (h2 : sq.x1 ≤ tb.x1)
    (h3 : tb.y0 ≤ sq.y0) (h4 : sq.y1 ≤ tb.y1)
    (h : g.intersects sq = true) : g.intersects tb = true := by
  rw [intersects_iff] at h ⊢
  obtain ⟨ha, hb, hc, hd⟩ := h
  exact ⟨by linarith, by linarith, by linarith, by linarith⟩

/-- The clip of a well-formed geometry that touches the well-formed
tile rectangle is not empty (so the empty-clip drop keeps it). -/
theorem inter_not_empty_of_touch {g tb : Rect}
    (hgx : g.x0 ≤ g.x1) (hgy : g.y0 ≤ g.y1)
    (htx : tb.x0 ≤ tb.x1) (hty : tb.y0 ≤ tb.y1)
    (h : g.intersects tb = true) : (g.inter tb).isEmptyB = false := by
  rw [intersects_iff] at h
  rw [isEmptyB_false_iff]
  unfold Rect.inter
  dsimp only
  obtain ⟨ha, hb, hc, hd⟩ := h
  exact ⟨le_min (max_le hgx hb) (max_le ha htx),
    le_min (max_le hgy hd) (max_le hc hty)⟩

/-- Burning the clipped, broad-phase-filtered list at a pixel square
inside the tile rectangle equals burning the raw polygon list. -/
theorem burn_list_any (polys : List Rect) (tb sq : Rect)
    (hpoly : ∀ g ∈ polys, g.x0 ≤ g.x1 ∧ g.y0 ≤ g.y1)
    (htx : tb.x0 ≤ tb.x1) (hty : tb.y0 ≤ tb.y1)
    (hwx : sq.x0 ≤ sq.x1) (hwy : sq.y0 ≤ sq.y1)
    (h1 : tb.x0 ≤ sq.x0) (h2 : sq.x1 ≤ tb.x1)
    (h3 : tb.y0 ≤ sq.y0) (h4 : sq.y1 ≤ tb.y1) :
    (((polys.filter (fun g => g.intersects tb)).map (fun g => g.inter tb)).filter
        (fun g => ! g.isEmptyB)).any (fun g => g.intersects sq)
      = polys.any (fun g => g.intersects sq) := by
  rw [Bool.eq_iff_iff, List.any_eq_true, List.any_eq_true]
  constructor
  · rintro ⟨g, hg, htouch⟩
    rw [List.mem_filter] at hg
    obtain ⟨hgm, _⟩ := hg
    rw [List.mem_map] at hgm
    obtain ⟨g0, hg0, rfl⟩ := hgm
    rw [List.mem_filter] at hg0
    refine ⟨g0, hg0.1, ?_⟩
    rwa [inter_touch_eq hwx hwy h1 h2 h3 h4] at htouch
  · rintro ⟨g0, hg0, htouch⟩
    have hsel : g0.intersects tb = true :=
      touch_tile_of_touch_sq hwx hwy h1 h2 h3 h4 htouch
    refine ⟨g0.inter tb, ?_, ?_⟩
    · rw [List.mem_filter]
      constructor
      · rw [List.mem_map]
        exact ⟨g0, List.mem_filter.mpr ⟨hg0, hsel⟩, rfl⟩
      · rw [inter_not_empty_of_touch (hpoly g0 hg0).1 (hpoly g0 hg0).2 htx hty hsel]
        rfl
    · rwa [inter_touch_eq hwx hwy h1 h2 h3 h4]

/-- Claim C2, amended: slicing a full mask at a tile's computed pixel
window reproduces the per-tile rasterization
(`polygons_to_mask_tiles.rasterize_tile`) of the same (well-formed)
polygons provided the full mask is burned with the same all-touched
rule at `RESOLUTION` and the grids align exactly: the tile's
geographic west/north used by the offset computation coincide with its
projected west/north and sit exactly on the mask's pixel grid at
integer offsets `(col, row)`, and the 256×256 window fits inside the
mask.  (As the claim literally stands — against the repository's
centre-sampled full-mask rasterizer — it is false: see the
counterexample.) -/
theorem mask_alignment_amended (geo : TileGeo) (polys : List Rect)
    (src : FullMask) (t : Tile) (col row : Nat)
    (hpoly : ∀ g ∈ polys, g.x0 ≤ g.x1 ∧ g.y0 ≤ g.y1)
    (hz : t.z = TileMask.ZOOM)
    (hwgs : geo.boundsWgs t = TileMask.tileRect src.c src.f col row)
    (h857 : geo.bounds3857 t = geo.boundsWgs t)
    (hdata : src.data = fun r c =>
      rasterize polys
        (from_origin src.c src.f TileMask.RESOLUTION TileMask.RESOLUTION) true r c)
    (hw : col + 256 ≤ src.width) (hh : row + 256 ≤ src.height) :
    TileMask.processTile geo src t =
      TileMask.TileOutcome.written (TileMask.sliceData geo src t)
        (from_origin (geo.boundsWgs t).x0 (geo.boundsWgs t).y1
          TileMask.RESOLUTION TileMask.RESOLUTION) ∧
    (∀ r c, r < 256 → c < 256 →
      TileMask.sliceData geo src t r c =
        (PolygonsToMaskTiles.rasterize_tile geo t ⟨CRS.epsg3857, polys⟩).mask r c) := by
  have hρ : (0:ℚ) < TileMask.RESOLUTION := by norm_num [TileMask.RESOLUTION]
  have hcol : TileMask.colOf geo src t = (col : ℤ) := by
    unfold TileMask.colOf
    rw [hwgs]
    unfold TileMask.tileRect
    dsimp only
    rw [show (src.c + (col:ℚ) * TileMask.RESOLUTION - src.c) / TileMask.RESOLUTION
        = (col:ℚ) from by field_simp]
    unfold truncToZero
    rw [if_pos (by positivity)]
    exact_mod_cast Int.floor_natCast col
  have hrow : TileMask.rowOf geo src t = (row : ℤ) := by
    unfold TileMask.rowOf
    rw [hwgs]
    unfold TileMask.tileRect
    dsimp only
    rw [show (src.f - (src.f - (row:ℚ) * TileMask.RESOLUTION)) / TileMask.RESOLUTION
        = (row:ℚ) from by field_simp]
    unfold truncToZero
    rw [if_pos (by positivity)]
    exact_mod_cast Int.floor_natCast row
  have hnot : ¬ TileMask.windowOutside geo src t := by
    unfold TileMask.windowOutside
    rw [hcol, hrow]
    push_neg
    have hts : ((TileMask.TILE_SIZE : ℕ) : ℤ) = 256 := rfl
    refine ⟨by positivity, by positivity, ?_, ?_⟩
    · rw [hts]; exact_mod_cast hw
    · rw [hts]; exact_mod_cast hh
  have hproc : TileMask.processTile geo src t =
      TileMask.TileOutcome.written (TileMask.sliceData geo src t)
        (from_origin (geo.boundsWgs t).x0 (geo.boundsWgs t).y1
          TileMask.RESOLUTION TileMask.RESOLUTION) := by
    unfold TileMask.processTile
    rw [if_neg (fun hne => hne hz), if_neg hnot]
  refine ⟨hproc, fun r c hr hc => ?_⟩
  have hcq : ((c:ℚ)) + 1 ≤ 256 := by exact_mod_cast Nat.succ_le_of_lt hc
  have hrq : ((r:ℚ)) + 1 ≤ 256 := by exact_mod_cast Nat.succ_le_of_lt hr
  have hcρ : ((c:ℚ) + 1) * TileMask.RESOLUTION ≤ 256 * TileMask.RESOLUTION :=
    mul_le_mul_of_nonneg_right hcq hρ.le
  have hrρ : ((r:ℚ) + 1) * TileMask.RESOLUTION ≤ 256 * TileMask.RESOLUTION :=
    mul_le_mul_of_nonneg_right hrq hρ.le
  have hslice : TileMask.sliceData geo src t r c
      = rasterize polys
          (from_origin src.c src.f TileMask.RESOLUTION TileMask.RESOLUTION)
          true (row + r) (col + c) := by
    unfold TileMask.sliceData
    rw [hcol, hrow, Int.toNat_natCast, Int.toNat_natCast, hdata]
  have htr : PolygonsToMaskTiles.tileTransform geo t
      = ⟨src.c + (col:ℚ) * TileMask.RESOLUTION,
         src.f - (row:ℚ) * TileMask.RESOLUTION,
         TileMask.RESOLUTION, TileMask.RESOLUTION⟩ := by
    unfold PolygonsToMaskTiles.tileTransform
      PolygonsToMaskTiles.get_tile_bounds_web_mercator
    rw [h857, hwgs]
    unfold TileMask.tileRect from_bounds
    dsimp only
    congr 1
    · push_cast
      rw [show src.c + ((col:ℚ) + 256) * TileMask.RESOLUTION
          - (src.c + (col:ℚ) * TileMask.RESOLUTION)
          = 256 * TileMask.RESOLUTION from by ring]
      rw [mul_comm (256:ℚ) TileMask.RESOLUTION, mul_div_assoc]
      norm_num
    · push_cast
      rw [show src.f - (row:ℚ) * TileMask.RESOLUTION
          - (src.f - ((row:ℚ) + 256) * TileMask.RESOLUTION)
          = 256 * TileMask.RESOLUTION from by ring]
      rw [mul_comm (256:ℚ) TileMask.RESOLUTION, mul_div_assoc]
      norm_num
  have hsq : pixelSquare
        (from_origin src.c src.f TileMask.RESOLUTION TileMask.RESOLUTION)
        (row + r) (col + c)
      = pixelSquare (PolygonsToMaskTiles.tileTransform geo t) r c := by
    rw [htr]
    unfold pixelSquare from_origin
    dsimp only
    congr 1 <;> push_cast <;> ring
  have htb : geo.bounds3857 t = TileMask.tileRect src.c src.f col row := by
    rw [h857, hwgs]
  have hclip : PolygonsToMaskTiles.clipped_geoms geo t ⟨CRS.epsg3857, polys⟩
      = ((polys.filter (fun g => g.intersects (geo.bounds3857 t))).map
          (fun g => g.inter (geo.bounds3857 t))).filter (fun g => ! g.isEmptyB) := rfl
  rw [hslice, p2mt_mask_any, hclip, htb]
  rw [show rasterize polys
        (from_origin src.c src.f TileMask.RESOLUTION TileMask.RESOLUTION)
        true (row + r) (col + c)
      = polys.any (fun g => g.intersects
          (pixelSquare
            (from_origin src.c src.f TileMask.RESOLUTION TileMask.RESOLUTION)
            (row + r) (col + c))) from rfl]
  rw [hsq, htr]
  refine (burn_list_any polys (TileMask.tileRect src.c src.f col row) _
    hpoly ?_ ?_ ?_ ?_ ?_ ?_ ?_ ?_).symm
  · unfold TileMask.tileRect
    dsimp only
    push_cast
    nlinarith [hρ.le]
  · unfold TileMask.tileRect
    dsimp only
    push_cast
    nlinarith [hρ.le]
  · unfold pixelSquare
    dsimp only
    nlinarith [hρ.le]
  · unfold pixelSquare
    dsimp only
    nlinarith [hρ.le]
  · unfold TileMask.tileRect pixelSquare
    dsimp only
    push_cast
    nlinarith [hρ.le, (show (0:ℚ) ≤ (c:ℚ) from Nat.cast_nonneg c),
      (show (0:ℚ) ≤ (r:ℚ) from Nat.cast_nonneg r)]
  · unfold TileMask.tileRect pixelSquare
    dsimp only
    push_cast
    nlinarith [hcρ]
  · unfold TileMask.tileRect pixelSquare
    dsimp only
    push_cast
    nlinarith [hrρ]
  · unfold TileMask.tileRect pixelSquare
    dsimp only
    push_cast
    nlinarith [hρ.le, (show (0:ℚ) ≤ (c:ℚ) from Nat.cast_nonneg c),
      (show (0:ℚ) ≤ (r:ℚ) from Nat.cast_nonneg r)]

/-- Witness for `mask_alignment_amended`: the aligned scenario at
offsets `(0, 0)` with the empty polygon collection. -/
theorem mask_alignment_amended_witness :
    ((0:Nat) + 256 ≤ 256) ∧
    TileMask.processTile alignWitnessGeo alignWitnessSrc ⟨0, 0, 17⟩ =
      TileMask.TileOutcome.written
        (TileMask.sliceData alignWitnessGeo alignWitnessSrc ⟨0, 0, 17⟩)
        (from_origin (alignWitnessGeo.boundsWgs ⟨0, 0, 17⟩).x0
          (alignWitnessGeo.boundsWgs ⟨0, 0, 17⟩).y1
          TileMask.RESOLUTION TileMask.RESOLUTION) ∧
    TileMask.sliceData alignWitnessGeo alignWitnessSrc ⟨0, 0, 17⟩ 0 0 =
      (PolygonsToMaskTiles.rasterize_tile alignWitnessGeo ⟨0, 0, 17⟩
        ⟨CRS.epsg3857, []⟩).mask 0 0 :=
  have h := mask_alignment_amended alignWitnessGeo [] alignWitnessSrc ⟨0, 0, 17⟩ 0 0
    (by simp) rfl rfl rfl rfl (by decide) (by decide)
  ⟨by decide, h.1, h.2 0 0 (by decide) (by decide)⟩

/-- Claim C2, counterexample: against the repository's own full-mask
rasterizer (`rasterize_to_mask`, centre sampling, `all_touched=False`)
at `RESOLUTION`, with a tile grid-aligned at the mask origin (computed
offsets `(0, 0)`, 256×256 window fully inside the 256×256 mask) and a
single thin strip polygon, the Mask Alignment Pass's sliced tile and
the directly rasterized tile
(`polygons_to_mask_tiles.rasterize_tile`, all-touched) disagree at
pixel `(255, 0)`: the slice is 0 there, the direct rasterization is
1 — the two paths are not equivalent. -/
theorem slice_mask_ne_rasterize_tile :
    ¬ TileMask.windowOutside alignGeo alignFull alignTile ∧
    TileMask.processTile alignGeo alignFull alignTile =
      TileMask.TileOutcome.written (TileMask.sliceData alignGeo alignFull alignTile)
        (from_origin alignBBox.x0 alignBBox.y1 TileMask.RESOLUTION TileMask.RESOLUTION) ∧
    TileMask.sliceData alignGeo alignFull alignTile 255 0 = false ∧
    (PolygonsToMaskTiles.rasterize_tile alignGeo alignTile
        ⟨CRS.epsg3857, [alignStrip]⟩).mask 255 0 = true := by
  have hc0 : alignFull.c = 0 := rfl
  have hf0 : alignFull.f = 256 * TileMask.RESOLUTION := rfl
  have hW : alignFull.width = 256 := by
    show (truncToZero ((alignBBox.x1 - alignBBox.x0) / TileMask.RESOLUTION)).toNat = 256
    norm_num [alignBBox, TileMask.RESOLUTION, truncToZero]
    decide
  have hH : alignFull.height = 256 := by
    show (truncToZero ((alignBBox.y1 - alignBBox.y0) / TileMask.RESOLUTION)).toNat = 256
    norm_num [alignBBox, TileMask.RESOLUTION, truncToZero]
    decide
  have hcol : TileMask.colOf alignGeo alignFull alignTile = 0 := by
    show truncToZero ((alignBBox.x0 - alignFull.c) / TileMask.RESOLUTION) = 0
    rw [hc0]
    norm_num [alignBBox, truncToZero]
  have hrow : TileMask.rowOf alignGeo alignFull alignTile = 0 := by
    show truncToZero ((alignFull.f - alignBBox.y1) / TileMask.RESOLUTION) = 0
    rw [hf0]
    norm_num [alignBBox, truncToZero]
  have hnot : ¬ TileMask.windowOutside alignGeo alignFull alignTile := by
    unfold TileMask.windowOutside
    rw [hcol, hrow, hW, hH]
    norm_num [TileMask.TILE_SIZE]
  have hproc : TileMask.processTile alignGeo alignFull alignTile =
      TileMask.TileOutcome.written (TileMask.sliceData alignGeo alignFull alignTile)
        (from_origin alignBBox.x0 alignBBox.y1
          TileMask.RESOLUTION TileMask.RESOLUTION) := by
    unfold TileMask.processTile
    rw [if_neg (fun hne => hne rfl), if_neg hnot]
    rfl
  have hslice : TileMask.sliceData alignGeo alignFull alignTile 255 0
      = alignFull.data 255 0 := by
    unfold TileMask.sliceData
    rw [hcol, hrow]
    rfl
  have htrfull : from_bounds alignBBox.x0 alignBBox.y0 alignBBox.x1 alignBBox.y1
      alignFull.width alignFull.height
      = from_origin 0 (256 * TileMask.RESOLUTION)
          TileMask.RESOLUTION TileMask.RESOLUTION := by
    rw [hW, hH]
    unfold from_bounds from_origin alignBBox
    dsimp only
    congr 1 <;> norm_num [TileMask.RESOLUTION]
  have hdata255 : alignFull.data 255 0 = false := by
    have h1 : alignFull.data 255 0 = rasterize [alignStrip]
        (from_bounds alignBBox.x0 alignBBox.y0 alignBBox.x1 alignBBox.y1
          alignFull.width alignFull.height) false 255 0 := rfl
    rw [h1, htrfull]
    simp only [rasterize, List.any_cons, List.any_nil, Bool.or_false]
    rw [Bool.eq_false_iff]
    intro hcontra
    unfold burnPixel at hcontra
    rw [if_neg (by simp)] at hcontra
    unfold Rect.containsPt from_origin at hcontra
    dsimp only at hcontra
    simp only [Bool.and_eq_true, decide_eq_true_eq] at hcontra
    obtain ⟨⟨⟨hp1, hp2⟩, hy0⟩, hp4⟩ := hcontra
    norm_num [alignStrip, TileMask.RESOLUTION] at hy0
  have hstripwfx : alignStrip.x0 ≤ alignStrip.x1 := by
    unfold alignStrip
    norm_num [TileMask.RESOLUTION]
  have hstripwfy : alignStrip.y0 ≤ alignStrip.y1 := by
    unfold alignStrip
    norm_num [TileMask.RESOLUTION]
  have hboxwfx : alignBBox.x0 ≤ alignBBox.x1 := by
    unfold alignBBox
    norm_num [TileMask.RESOLUTION]
  have hboxwfy : alignBBox.y0 ≤ alignBBox.y1 := by
    unfold alignBBox
    norm_num [TileMask.RESOLUTION]
  have hsel : alignStrip.intersects alignBBox = true := by
    rw [intersects_iff]
    unfold alignStrip alignBBox
    dsimp only
    refine ⟨?_, ?_, ?_, ?_⟩ <;> norm_num [TileMask.RESOLUTION]
  have hne : (alignStrip.inter alignBBox).isEmptyB = false :=
    inter_not_empty_of_touch hstripwfx hstripwfy hboxwfx hboxwfy hsel
  have hclip : PolygonsToMaskTiles.clipped_geoms alignGeo alignTile
      ⟨CRS.epsg3857, [alignStrip]⟩ = [alignStrip.inter alignBBox] := by
    show ((([alignStrip].filter (fun g => g.intersects alignBBox)).map
        (fun g => g.inter alignBBox)).filter (fun g => ! g.isEmptyB))
      = [alignStrip.inter alignBBox]
    simp [hsel, hne]
  have hsq : pixelSquare (PolygonsToMaskTiles.tileTransform alignGeo alignTile) 255 0
      = ⟨0, 0, TileMask.RESOLUTION, TileMask.RESOLUTION⟩ := by
    show pixelSquare
        (from_bounds alignBBox.x0 alignBBox.y0 alignBBox.x1 alignBBox.y1 256 256)
        255 0 = _
    unfold from_bounds pixelSquare alignBBox
    dsimp only
    congr 1 <;> norm_num [TileMask.RESOLUTION]
  have htouch : (alignStrip.inter alignBBox).intersects
      (⟨0, 0, TileMask.RESOLUTION, TileMask.RESOLUTION⟩ : Rect) = true := by
    rw [intersects_iff]
    unfold Rect.inter alignStrip alignBBox
    dsimp only
    refine ⟨?_, ?_, ?_, ?_⟩
    · rw [max_eq_left (le_refl (0:ℚ))]
      norm_num [TileMask.RESOLUTION]
    · rw [min_eq_left (le_refl _)]
      norm_num [TileMask.RESOLUTION]
    · rw [max_eq_left (by norm_num [TileMask.RESOLUTION])]
      norm_num [TileMask.RESOLUTION]
    · rw [min_eq_left (by norm_num [TileMask.RESOLUTION])]
      norm_num [TileMask.RESOLUTION]
  have hp2mt : (PolygonsToMaskTiles.rasterize_tile alignGeo alignTile
      ⟨CRS.epsg3857, [alignStrip]⟩).mask 255 0 = true := by
    rw [p2mt_mask_any, hclip]
    simp only [List.any_cons, List.any_nil, Bool.or_false]
    rw [hsq]
    exact htouch
  exact ⟨hnot, hproc, hslice.trans hdata255, hp2mt⟩

end ForestTrace
